import Mathlib

/-!
# Verification of the drug-app utility scripts

A shallow embedding of the two Python scripts of this repository:

* `scripts/compact_database.py` — the Compactor: trims drug records of a
  large JSON database down to a fixed allowlist of fields.
* `scripts/download_databases.py` — the Fetcher: downloads database files
  when they are absent locally, handling Google Drive confirmation tokens.

Python/JSON values are modelled by the inductive type `PyVal`; Python dicts
are association lists (`PyDict`), `dict.get` is `pyGet`/`pyGetD`, and
Python truthiness is `PyVal.truthy`.  Fallible Python code (attribute
errors, file-not-found, network failures) returns `Except`.
-/

set_option autoImplicit false

namespace DrugApp

/-- A Python/JSON value as handled by the scripts: `None`, booleans,
integers, strings, lists and string-keyed dicts. -/
inductive PyVal where
  | noneV
  | boolV (b : Bool)
  | intV (n : Int)
  | strV (s : String)
  | listV (xs : List PyVal)
  | dictV (fields : List (String × PyVal))

/-- A Python dict with string keys, as an association list (first binding
of a key wins, matching a dict built from unique JSON keys). -/
abbrev PyDict := List (String × PyVal)

/-- `d.get(k)`: the value bound to `k`, or `None` when the key is absent. -/
def pyGet (d : PyDict) (k : String) : PyVal :=
  (d.lookup k).getD .noneV

/-- `d.get(k, default)`: the value bound to `k`, or `default` when the key
is absent (a key bound to `None` still yields `None`). -/
def pyGetD (d : PyDict) (k : String) (dflt : PyVal) : PyVal :=
  (d.lookup k).getD dflt

/-- Python truthiness: `None`, `False`, `0`, `""` and empty containers are
falsy; everything else is truthy. -/
def PyVal.truthy : PyVal → Bool
  | .noneV => false
  | .boolV b => b
  | .intV n => n != 0
  | .strV s => s != ""
  | .listV xs => !xs.isEmpty
  | .dictV fs => !fs.isEmpty

/-- `isinstance(v, dict)`. -/
def PyVal.isDict : PyVal → Bool
  | .dictV _ => true
  | _ => false

/-- `isinstance(v, list)`. -/
def PyVal.isList : PyVal → Bool
  | .listV _ => true
  | _ => false

/-- `isinstance(v, str)`. -/
def PyVal.isStr : PyVal → Bool
  | .strV _ => true
  | _ => false

/-- `v is None`. -/
def PyVal.isNone : PyVal → Bool
  | .noneV => true
  | _ => false

/-- Python `a or b`: `a` when truthy, else `b`. -/
def pyOr (a b : PyVal) : PyVal :=
  if a.truthy then a else b

/-! ## compact_database.py -/

/-- `ESSENTIAL_PROPERTY_KINDS` of `compact_database.py`. -/
def ESSENTIAL_PROPERTY_KINDS : List String :=
  ["Melting Point", "Water Solubility", "Molecular Weight", "logP", "pKa"]

/-- The keys kept by `simplify_dosing` at the top level of `dosing_info`. -/
def dosingKeepKeys : List String :=
  ["has_dosing", "source", "frequency", "times_per_day", "routes", "instructions"]

/-- The keys kept by `simplify_dosing` inside `openfda_full`. -/
def openfdaKeepKeys : List String :=
  ["frequency", "times_per_day", "times_per_day_range", "route", "routes", "instructions"]

/-- The dict comprehension `{k: d.get(k) for k in keys if d.get(k) is not None}`. -/
def keepNonNull (d : PyDict) (keys : List String) : PyDict :=
  keys.filterMap fun k =>
    if (pyGet d k).isNone then Option.none else some (k, pyGet d k)

/-- `simplify_dosing` of `compact_database.py`: a non-dict yields `{}`;
otherwise the allowlisted non-`None` keys are kept and, when `openfda_full`
is a dict, its own allowlisted non-`None` keys are kept under
`openfda_full`. -/
def simplify_dosing : PyVal → PyDict
  | .dictV d =>
      let simplified := keepNonNull d dosingKeepKeys
      match pyGet d "openfda_full" with
      | .dictV od => simplified ++ [("openfda_full", .dictV (keepNonNull od openfdaKeepKeys))]
      | _ => simplified
  | _ => []

/-- `simplify_interactions` of `compact_database.py`. -/
def simplify_interactions : PyVal → List PyVal
  | .listV xs =>
      xs.filterMap fun x =>
        match x with
        | .dictV d =>
            some (.dictV [("drugbank_id", pyGet d "drugbank_id"),
                          ("name", pyGet d "name"),
                          ("description", pyGet d "description")])
        | _ => Option.none
  | _ => []

/-- `simplify_dosages` of `compact_database.py`. -/
def simplify_dosages : PyVal → List PyVal
  | .listV xs =>
      xs.filterMap fun x =>
        match x with
        | .dictV d =>
            some (.dictV [("form", pyGet d "form"),
                          ("route", pyGet d "route"),
                          ("strength", pyGet d "strength")])
        | _ => Option.none
  | _ => []

/-- `prop.get("kind") in ESSENTIAL_PROPERTY_KINDS`: only a string value can
be equal to a member of the (string) set. -/
def kindAllowed : PyVal → Bool
  | .strV s => ESSENTIAL_PROPERTY_KINDS.contains s
  | _ => false

/-- `simplify_properties` of `compact_database.py`. -/
def simplify_properties : PyVal → List PyVal
  | .listV xs =>
      xs.filterMap fun x =>
        match x with
        | .dictV d =>
            if kindAllowed (pyGet d "kind") then
              some (.dictV [("kind", pyGet d "kind"),
                            ("value", pyGet d "value"),
                            ("unit", pyGet d "unit")])
            else Option.none
        | _ => Option.none
  | _ => []

/-- `simplify_categories` of `compact_database.py`: a dict entry contributes
`category or mesh_id or name` when that is truthy, a string entry is kept
as-is, anything else is skipped. -/
def simplify_categories : PyVal → List PyVal
  | .listV xs =>
      xs.filterMap fun c =>
        match c with
        | .dictV d =>
            let label := pyOr (pyGet d "category") (pyOr (pyGet d "mesh_id") (pyGet d "name"))
            if label.truthy then some label else Option.none
        | .strV s => some (.strV s)
        | _ => Option.none
  | _ => []

/-- The exceptions the scripts can raise. -/
inductive PyErr where
  | fileNotFound
  | attributeError
deriving DecidableEq

/-- `drug.get("drugbank_ids", {})` as used by `trim_drug`: the fields of
that value when it is a dict; `trim_drug` raises `AttributeError` on any
other value (`.get` is then called on a non-dict). -/
def drugbankIdsOf (d : PyDict) : Except PyErr PyDict :=
  match pyGetD d "drugbank_ids" (.dictV []) with
  | .dictV ids => .ok ids
  | _ => .error .attributeError

/-- `trim_drug` of `compact_database.py`: builds the fixed 15-key trimmed
record; raises `AttributeError` when `drugbank_ids` is present but not a
dict. -/
def trim_drug (d : PyDict) : Except PyErr PyDict :=
  match drugbankIdsOf d with
  | .error e => .error e
  | .ok ids =>
      .ok [("name", pyGet d "name"),
           ("drugbank_ids", .dictV [("primary", pyGet ids "primary"),
                                    ("secondary", pyGetD ids "secondary" (.listV []))]),
           ("description", pyGet d "description"),
           ("type", pyGet d "type"),
           ("groups", pyGetD d "groups" (.listV [])),
           ("categories", .listV (simplify_categories (pyGet d "categories"))),
           ("mechanism_of_action", pyGet d "mechanism_of_action"),
           ("half_life", pyGet d "half_life"),
           ("absorption", pyGet d "absorption"),
           ("metabolism", pyGet d "metabolism"),
           ("food_interactions", pyGetD d "food_interactions" (.listV [])),
           ("drug_interactions", .listV (simplify_interactions (pyGet d "drug_interactions"))),
           ("experimental_properties", .listV (simplify_properties (pyGet d "experimental_properties"))),
           ("dosages", .listV (simplify_dosages (pyGet d "dosages"))),
           ("dosing_info", .dictV (simplify_dosing (pyGet d "dosing_info")))]

/-- The fixed top-level key set of a trimmed drug record, in output order. -/
def trimmedKeys : List String :=
  ["name", "drugbank_ids", "description", "type", "groups", "categories",
   "mechanism_of_action", "half_life", "absorption", "metabolism",
   "food_interactions", "drug_interactions", "experimental_properties",
   "dosages", "dosing_info"]

/-! ### The Compactor's `main` -/

/-- The parsed source database: its `metadata` value and the elements of
its `drugs` array (each an arbitrary JSON value). -/
structure SourceDB where
  metadata : PyVal
  drugs : List PyVal

/-- `trim_drug` as applied by `main` to a streamed array element: a
non-dict element raises `AttributeError` (`.get` on a non-dict). -/
def trimDrugVal : PyVal → Except PyErr PyDict
  | .dictV d => trim_drug d
  | _ => .error .attributeError

/-- Trimming every drug of the source in order, propagating the first
exception. -/
def trimAll : List PyVal → Except PyErr (List PyDict)
  | [] => .ok []
  | d :: rest =>
      match trimDrugVal d with
      | .error e => .error e
      | .ok t =>
          match trimAll rest with
          | .error e => .error e
          | .ok ts => .ok (t :: ts)

/-- The file-system state seen by the Compactor: the parsed source file
(`Option.none` when the file does not exist) and the parsed target file. -/
structure CompactState where
  source : Option SourceDB
  target : Option (PyVal × List PyDict)

/-- `main` of `compact_database.py`: raises `FileNotFoundError` when the
source is absent; otherwise skips when the target exists; otherwise writes
the target with the verbatim metadata and the trimmed drugs. -/
def compactMain (st : CompactState) : Except PyErr CompactState :=
  match st.source with
  | Option.none => .error .fileNotFound
  | some db =>
      match st.target with
      | some _ => .ok st
      | Option.none =>
          match trimAll db.drugs with
          | .error e => .error e
          | .ok ts => .ok { st with target := some (db.metadata, ts) }

/-! ## download_databases.py -/

/-- The two regular-expression shapes of `extract_drive_file_id`, searched
over lists of characters.  `searchCapture pre stop needStop l` models
`re.search` for `pre([^stop]+)` (with a trailing `stop` required when
`needStop` is true): at the leftmost position where the literal `pre`
occurs, capture the maximal run of non-`stop` characters after it; the
match fails there when the run is empty or (when required) when no `stop`
character follows, and the search then resumes one position later. -/
def searchCapture (pre : List Char) (stop : Char) (needStop : Bool) :
    List Char → Option (List Char)
  | [] => Option.none
  | l@(_ :: rest) =>
      if pre.isPrefixOf l then
        let after := l.drop pre.length
        let run := after.takeWhile (· != stop)
        if run.isEmpty then searchCapture pre stop needStop rest
        else if needStop && run.length == after.length then
          searchCapture pre stop needStop rest
        else some run
      else searchCapture pre stop needStop rest

/-- `extract_drive_file_id` of `download_databases.py`: first the pattern
for a share link, then the `id=` query-parameter pattern. -/
def extract_drive_file_id (url : String) : Option String :=
  match searchCapture "https://drive.google.com/file/d/".toList '/' true url.toList with
  | some cs => some (String.mk cs)
  | Option.none =>
      match searchCapture "id=".toList '&' false url.toList with
      | some cs => some (String.mk cs)
      | Option.none => Option.none

/-- `build_drive_download_url` of `download_databases.py`. -/
def build_drive_download_url (file_id : String) : String :=
  "https://drive.google.com/uc?export=download&id=" ++ file_id

/-- The direct-download URL `download_file` actually requests. -/
def resolvedUrl (url : String) : String :=
  match extract_drive_file_id url with
  | some fid => build_drive_download_url fid
  | Option.none => url

/-- An HTTP request: a URL and its query parameters. -/
structure Request where
  url : String
  params : List (String × String)
deriving DecidableEq

/-- An HTTP response: a status code, the response cookies in iteration
order, and the content chunks. -/
structure HttpResp where
  status : Nat
  cookies : List (String × String)
  chunks : List String

/-- The network as an oracle: each request either raises or yields a
response. -/
def Net : Type := Request → Except Unit HttpResp

/-- The file-system state seen by the Fetcher: file path to content
chunks. -/
structure FetchFS where
  files : List (String × List String)
deriving DecidableEq

/-- Whether a path exists in the Fetcher's file system. -/
def fileExists (fs : FetchFS) (p : String) : Bool :=
  (fs.files.lookup p).isSome

/-- Writing a file (parent directories are created as needed). -/
def writeFile (fs : FetchFS) (p : String) (content : List String) : FetchFS :=
  ⟨(p, content) :: fs.files⟩

/-- `s.startswith(pre)`, computed over the character lists. -/
def strStartsWith (s pre : String) : Bool :=
  pre.toList.isPrefixOf s.toList

/-- The loop over `response.cookies.items()`: the value of the first
cookie whose key starts with `download_warning`. -/
def warningToken (cookies : List (String × String)) : Option String :=
  (cookies.find? fun kv => strStartsWith kv.fst "download_warning").map Prod.snd

/-- `response.raise_for_status()` followed by the chunked write: raises on
a 4xx/5xx status, otherwise writes the non-empty chunks to the target. -/
def saveResponse (resp : HttpResp) (target : String) (fs : FetchFS) :
    Except Unit FetchFS :=
  if 400 ≤ resp.status ∧ resp.status < 600 then .error ()
  else .ok (writeFile fs target (resp.chunks.filter (· != "")))

/-- The body of `download_file` (inside the `try`): the first value is the
outcome (the new file system, or the exception), the second the list of
requests issued, in order.  The second request is guarded by `if token:`,
Python truthiness, so a `download_warning` cookie with an empty value does
not trigger it. -/
def downloadBody (net : Net) (url : String) (target : String) (fs : FetchFS) :
    Except Unit FetchFS × List Request :=
  let durl := resolvedUrl url
  let req1 : Request := ⟨durl, []⟩
  match net req1 with
  | .error e => (.error e, [req1])
  | .ok resp1 =>
      match warningToken resp1.cookies with
      | some tok =>
          if tok != "" then
            let req2 : Request := ⟨durl, [("confirm", tok)]⟩
            match net req2 with
            | .error e => (.error e, [req1, req2])
            | .ok resp2 => (saveResponse resp2 target fs, [req1, req2])
          else (saveResponse resp1 target fs, [req1])
      | Option.none => (saveResponse resp1 target fs, [req1])

/-- The outcome of `download_file`: success flag, resulting file system,
requests issued. -/
structure DownloadResult where
  ok : Bool
  fs : FetchFS
  reqs : List Request
deriving DecidableEq

/-- `download_file` of `download_databases.py`: runs the body and catches
every exception, returning `False` instead of propagating. -/
def download_file (net : Net) (url : String) (target : String) (fs : FetchFS) :
    DownloadResult :=
  match downloadBody net url target fs with
  | (.ok fs', reqs) => ⟨true, fs', reqs⟩
  | (.error _, reqs) => ⟨false, fs, reqs⟩

/-- The log lines the Fetcher prints, by kind. -/
inductive LogMsg where
  | alreadyPresent (target : String)
  | noUrl (target : String)
  | downloaded (target : String)
  | failed (url : String) (target : String)
  | noDatabases
deriving DecidableEq

/-- `if not url`: `None` and the empty string are falsy. -/
def urlTruthy : Option String → Bool
  | Option.none => false
  | some s => s != ""

/-- `ensure_file` of `download_databases.py`: skip when the target exists,
warn when no URL is configured, otherwise download.  Returns the file
system, the requests issued and the log. -/
def ensure_file (net : Net) (target : String) (url : Option String) (fs : FetchFS) :
    FetchFS × List Request × List LogMsg :=
  if fileExists fs target then (fs, [], [.alreadyPresent target])
  else if urlTruthy url then
    let r := download_file net (url.getD "") target fs
    (r.fs, r.reqs, [if r.ok then .downloaded target else .failed (url.getD "") target])
  else (fs, [], [.noUrl target])

/-- The fixed target paths of the Fetcher. -/
def COMPACT_DB : String := "comprehensive_drug_database_compact.json"

/-- The full-database target path of the Fetcher. -/
def FULL_DB : String := "comprehensive_drug_database.json"

/-- The default compact-database URL of `download_databases.py`. -/
def DEFAULT_COMPACT_URL : String :=
  "https://drive.google.com/file/d/12o_cdObA01lxXJMY8LjCqlPVrXF56bZF/view?usp=drive_link"

/-- The environment variables read by the Fetcher (`Option.none` when
unset). -/
structure FetchEnv where
  compactUrlVar : Option String
  fullUrlVar : Option String

/-- `main` of `download_databases.py`: ensure the compact database (URL
defaulted), then the full database (no default), then warn when neither
file exists. -/
def fetchMain (net : Net) (env : FetchEnv) (fs : FetchFS) :
    FetchFS × List Request × List LogMsg :=
  let compactUrl := env.compactUrlVar.getD DEFAULT_COMPACT_URL
  let r1 := ensure_file net COMPACT_DB (some compactUrl) fs
  let r2 := ensure_file net FULL_DB env.fullUrlVar r1.1
  let fs' := r2.1
  let logs := r1.2.2 ++ r2.2.2 ++
    (if !fileExists fs' COMPACT_DB && !fileExists fs' FULL_DB then [.noDatabases] else [])
  (fs', r1.2.1 ++ r2.2.1, logs)

/-! ## Helper definitions for the statements -/

/-- Whether an `Except` computation succeeded. -/
def exOk {ε α : Type} : Except ε α → Bool
  | .ok _ => true
  | .error _ => false

/-- A drug value on which `trim_drug` does not raise: a dict whose
`drugbank_ids` value, when present, is itself a dict. -/
def trimSafe : PyVal → Bool
  | .dictV d => (pyGetD d "drugbank_ids" (.dictV [])).isDict
  | _ => false

/-- The trimmed record of a drug, or `[]` when `trim_drug` raised. -/
def trimResult (d : PyDict) : PyDict :=
  match trim_drug d with
  | .ok t => t
  | .error _ => []

/-- The retained top-level fields that are copied verbatim with no
default (every other retained field is defaulted or rebuilt). -/
def scalarRetainedKeys : List String :=
  ["name", "description", "type", "mechanism_of_action", "half_life",
   "absorption", "metabolism"]

/-- The spec's per-entry normalization for `categories`, stated from the
spec's words to be compared with `simplify_categories`: a plain string is
kept as-is; a mapping contributes the first non-empty value among its
`category`, `mesh_id` and `name` keys, and contributes nothing when none
of them is non-empty; any other entry contributes nothing. -/
def categoryLabelSpec : PyVal → Option PyVal
  | .strV s => some (.strV s)
  | .dictV d => [pyGet d "category", pyGet d "mesh_id", pyGet d "name"].find? PyVal.truthy
  | _ => Option.none

/-- The spec's selection rule for `experimental_properties`, stated from
the spec's words: an entry is kept exactly when it is a mapping whose
`kind` is in the fixed allowed set. -/
def allowedPropSpec : PyVal → Bool
  | .dictV d => kindAllowed (pyGet d "kind")
  | _ => false

/-- The spec's reduction rule for a kept `experimental_properties` entry:
reduce the mapping to the three keys `kind`, `value`, `unit`. -/
def reducePropSpec : PyVal → PyVal
  | .dictV d =>
      .dictV [("kind", pyGet d "kind"), ("value", pyGet d "value"),
              ("unit", pyGet d "unit")]
  | v => v

/-! ## Shared lemmas -/

/-- Looking a key up past a head entry with a different key. -/
theorem lookup_cons_ne (k k' : String) (v : PyVal) (l : PyDict) (h : (k == k') = false) :
    ((k', v) :: l).lookup k = l.lookup k := by
  simp only [List.lookup, h]

/-- A key whose value in `d` is `None` is dropped by `keepNonNull`. -/
theorem lookup_keepNonNull_of_null {d : PyDict} {k : String}
    (hd : pyGet d k = .noneV) (keys : List String) :
    (keepNonNull d keys).lookup k = Option.none := by
  induction keys with
  | nil => rfl
  | cons k' rest ih =>
      show (List.filterMap _ (k' :: rest)).lookup k = Option.none
      rw [List.filterMap_cons]
      by_cases hk : k' = k
      · subst hk
        rw [hd]
        exact ih
      · cases hn : (pyGet d k').isNone
        · show ((k', pyGet d k') :: keepNonNull d rest).lookup k = Option.none
          rw [lookup_cons_ne k k' _ _ (by simp [Ne.symm hk])]
          exact ih
        · exact ih

/-- Lookup skips a prefix that does not bind the key. -/
theorem lookup_append_of_none {k : String} {l₁ : PyDict} (l₂ : PyDict)
    (h : l₁.lookup k = Option.none) :
    (l₁ ++ l₂).lookup k = l₂.lookup k := by
  induction l₁ with
  | nil => rfl
  | cons p rest ih =>
      obtain ⟨k', v⟩ := p
      cases hbe : k == k'
      · rw [lookup_cons_ne k k' v rest hbe] at h
        rw [List.cons_append, lookup_cons_ne k k' v (rest ++ l₂) hbe]
        exact ih h
      · exfalso
        simp only [List.lookup, hbe] at h
        cases h

/-- Python `a or b or c` guarded by truthiness is the first truthy value
of the three. -/
theorem pyOr_find (a b c : PyVal) :
    (if (pyOr a (pyOr b c)).truthy then some (pyOr a (pyOr b c)) else Option.none) =
      [a, b, c].find? PyVal.truthy := by
  simp only [pyOr]
  by_cases ha : a.truthy <;> by_cases hb : b.truthy <;> by_cases hc : c.truthy <;>
    simp [List.find?, ha, hb, hc]

/-- The only exception `trimAll` can raise is `AttributeError`. -/
theorem trimAll_error (ds : List PyVal) (e : PyErr) (h : trimAll ds = .error e) :
    e = .attributeError := by
  induction ds with
  | nil => cases h
  | cons d rest ih =>
      simp only [trimAll] at h
      cases hd : trimDrugVal d with
      | error e' =>
          rw [hd] at h
          have : e' = .attributeError := by
            cases d <;> simp [trimDrugVal] at hd <;> try (cases hd; rfl)
            case dictV dd =>
              simp only [trim_drug] at hd
              cases hids : drugbankIdsOf dd with
              | error e2 =>
                  rw [hids] at hd
                  cases hd
                  simp only [drugbankIdsOf] at hids
                  cases hpv : pyGetD dd "drugbank_ids" (.dictV []) <;> rw [hpv] at hids <;>
                    first | (cases hids; rfl) | cases hids
              | ok ids => rw [hids] at hd; cases hd
          cases h; exact this
      | ok t =>
          rw [hd] at h
          cases ht : trimAll rest with
          | error e' => rw [ht] at h; cases h; exact ih ht
          | ok ts => rw [ht] at h; cases h

/-- `trim_drug` succeeds on every `trimSafe` drug value. -/
theorem trimSafe_ok (v : PyVal) (h : trimSafe v = true) : exOk (trimDrugVal v) = true := by
  cases v <;> simp [trimSafe] at h
  case dictV d =>
    simp only [trimDrugVal, trim_drug, drugbankIdsOf]
    cases hpv : pyGetD d "drugbank_ids" (.dictV []) <;> rw [hpv] at h <;>
      simp [PyVal.isDict] at h ⊢
    rfl

/-- `trimAll` succeeds when every drug is `trimSafe`. -/
theorem trimAll_ok (ds : List PyVal) (h : ∀ d ∈ ds, trimSafe d = true) :
    exOk (trimAll ds) = true := by
  induction ds with
  | nil => rfl
  | cons d rest ih =>
      have h1 := trimSafe_ok d (h d (by simp))
      simp only [trimAll]
      cases hd : trimDrugVal d with
      | error e => rw [hd] at h1; cases h1
      | ok t =>
          cases ht : trimAll rest with
          | error e =>
              have := ih (fun x hx => h x (by simp [hx]))
              rw [ht] at this; cases this
          | ok ts => rfl

/-- `download_file` issues exactly the requests of its body, caught or
not. -/
theorem download_file_reqs (net : Net) (url target : String) (fs : FetchFS) :
    (download_file net url target fs).reqs = (downloadBody net url target fs).2 := by
  unfold download_file
  rcases h : downloadBody net url target fs with ⟨res, reqs⟩
  cases res <;> rfl

/-- `ensure_file` always prints exactly one line for its target. -/
theorem ensure_file_log_len (net : Net) (target : String) (url : Option String)
    (fs : FetchFS) :
    (ensure_file net target url fs).2.2.length = 1 := by
  unfold ensure_file
  by_cases h : fileExists fs target
  · simp [h]
  · by_cases hu : urlTruthy url <;> simp [h, hu]

/-! ## Claims -/

/-- Claim C1, counterexample: for the empty source record, the retained
field `name` is missing in the source and is not one of the fields
defaulted to an empty sequence, yet the trimmed output contains it bound
to `None` (serialized as `null`), not absent as the claim states. -/
theorem C1_counterexample :
    (trim_drug []).toOption.map (fun t => t.lookup "name") = some (some PyVal.noneV) := rfl

/-- Claim C1, amended: missing retained fields are omitted (absent) only
inside `dosing_info` and its `openfda_full` sub-mapping; at the top level
of a trimmed record a retained scalar field that is missing in the source
is present with a `None`/null value, and the fields defaulted to
sequences (`groups`, `food_interactions`) are present with an empty
sequence. -/
theorem C1_missing_fields (d t : PyDict) (h : trim_drug d = .ok t) :
    (∀ k ∈ scalarRetainedKeys, d.lookup k = Option.none → t.lookup k = some PyVal.noneV) ∧
    (d.lookup "groups" = Option.none → t.lookup "groups" = some (.listV [])) ∧
    (d.lookup "food_interactions" = Option.none →
      t.lookup "food_interactions" = some (.listV [])) ∧
    (∀ ids, drugbankIdsOf d = .ok ids → ids.lookup "secondary" = Option.none →
      t.lookup "drugbank_ids" =
        some (.dictV [("primary", pyGet ids "primary"), ("secondary", .listV [])])) ∧
    (∀ dd : PyDict, ∀ k ∈ dosingKeepKeys, pyGet dd k = .noneV →
      (simplify_dosing (.dictV dd)).lookup k = Option.none) ∧
    (∀ od : PyDict, ∀ k ∈ openfdaKeepKeys, pyGet od k = .noneV →
      (keepNonNull od openfdaKeepKeys).lookup k = Option.none) := by
  simp only [trim_drug] at h
  cases hids : drugbankIdsOf d <;> rw [hids] at h
  case error e => cases h
  case ok ids =>
  cases h
  refine ⟨?_, ?_, ?_, ?_, ?_, ?_⟩
  · intro k hk hm
    fin_cases hk <;> simp [List.lookup, pyGet, hm]
  · intro hm
    simp [List.lookup, pyGetD, hm]
  · intro hm
    simp [List.lookup, pyGetD, hm]
  · intro ids' hids2 hsec
    injection hids2 with hii
    subst hii
    simp [List.lookup, pyGetD, hsec]
  · intro dd k hk hd
    have hbase := lookup_keepNonNull_of_null hd dosingKeepKeys
    simp only [simplify_dosing]
    cases hof : pyGet dd "openfda_full"
    case dictV od =>
      rw [lookup_append_of_none _ hbase]
      have hne : (k == "openfda_full") = false := by
        fin_cases hk <;> rfl
      rw [lookup_cons_ne k _ _ _ hne]
      rfl
    all_goals exact hbase
  · intro od k hk hd
    exact lookup_keepNonNull_of_null hd openfdaKeepKeys

/-- Claim C1, witness: for the empty source record, `description` is
present bound to `None`, `drugbank_ids.secondary` is present as the empty
sequence, and inside `dosing_info` the missing `source` key is absent. -/
theorem C1_witness :
    (trimResult []).lookup "description" = some PyVal.noneV ∧
    (trimResult []).lookup "drugbank_ids" =
      some (.dictV [("primary", PyVal.noneV), ("secondary", .listV [])]) ∧
    (simplify_dosing (.dictV [])).lookup "source" = Option.none := by
  have h := C1_missing_fields [] (trimResult []) rfl
  exact ⟨h.1 "description" (by simp [scalarRetainedKeys]) rfl,
         h.2.2.2.1 [] rfl rfl,
         h.2.2.2.2.1 [] "source" (by simp [dosingKeepKeys]) rfl⟩

/-- Claim C2: a successful Compactor run is idempotent — running `main`
again on the resulting state succeeds and changes nothing — and when the
Fetcher's target already exists `ensure_file` issues no request and
leaves the file system unchanged. -/
theorem C2_second_run_noop (st st' : CompactState) (net : Net) (fs : FetchFS)
    (target : String) (url : Option String) :
    (compactMain st = .ok st' → compactMain st' = .ok st') ∧
    (fileExists fs target = true →
      ensure_file net target url fs = (fs, [], [.alreadyPresent target])) := by
  constructor
  · intro h
    obtain ⟨src, tgt⟩ := st
    cases src with
    | none => cases h
    | some db =>
        cases tgt with
        | some t =>
            simp [compactMain] at h
            subst h
            simp [compactMain]
        | none =>
            cases ht : trimAll db.drugs with
            | error e => simp [compactMain, ht] at h
            | ok ts =>
                simp [compactMain, ht] at h
                subst h
                simp [compactMain]
  · intro h
    simp [ensure_file, h]

/-- Claim C2, witness: a second Compactor run on the state left by a
first run over an empty database is a successful no-op, and `ensure_file`
on an existing target leaves everything unchanged with no request. -/
theorem C2_witness :
    compactMain ⟨some ⟨.dictV [], []⟩, some (.dictV [], [])⟩ =
      .ok ⟨some ⟨.dictV [], []⟩, some (.dictV [], [])⟩ ∧
    ensure_file (fun _ => .error ()) "t" (some "u") ⟨[("t", [])]⟩ =
      (⟨[("t", [])]⟩, [], [.alreadyPresent "t"]) := by
  have h := C2_second_run_noop ⟨some ⟨.dictV [], []⟩, Option.none⟩
    ⟨some ⟨.dictV [], []⟩, some (.dictV [], [])⟩
    (fun _ => .error ()) ⟨[("t", [])]⟩ "t" (some "u")
  exact ⟨h.1 rfl, h.2 rfl⟩

/-- Claim C3: `simplify_categories` keeps plain strings as-is and
normalizes each mapping to the first non-empty value among its
`category`, `mesh_id` and `name` keys (a mapping with none of these
non-empty contributes nothing), and on the sample input
`["A", {category: "B"}, {mesh_id: "C"}, {}]` returns `["A", "B", "C"]`. -/
theorem C3_categories_normalization :
    (∀ xs : List PyVal, simplify_categories (.listV xs) = xs.filterMap categoryLabelSpec) ∧
    simplify_categories (.listV [.strV "A", .dictV [("category", .strV "B")],
      .dictV [("mesh_id", .strV "C")], .dictV []]) = [.strV "A", .strV "B", .strV "C"] := by
  constructor
  · intro xs
    show xs.filterMap _ = xs.filterMap categoryLabelSpec
    apply List.filterMap_congr
    intro c _
    cases c <;> simp only [categoryLabelSpec]
    case dictV d => exact pyOr_find _ _ _
  · rfl

/-- Claim C4: `simplify_properties` keeps exactly the entries that are
mappings whose `kind` is in `ESSENTIAL_PROPERTY_KINDS`, each reduced to
the keys `kind`, `value`, `unit`; every other entry is dropped. -/
theorem C4_properties_allowlist (xs : List PyVal) :
    simplify_properties (.listV xs) = (xs.filter allowedPropSpec).map reducePropSpec := by
  show xs.filterMap _ = _
  induction xs with
  | nil => rfl
  | cons x rest ih =>
      cases x <;> simp [List.filterMap_cons, List.filter_cons, allowedPropSpec, ih]
      case dictV d =>
        by_cases hk : kindAllowed (pyGet d "kind") <;> simp [hk, reducePropSpec, ih]

/-- Claim C5: the simplify functions are total on malformed shapes — a
non-mapping `dosing_info` yields `{}`, a non-sequence
`categories`/`drug_interactions`/`dosages` yields `[]`, and non-mapping
entries inside those sequences (except plain strings in `categories`) are
skipped. -/
theorem C5_total_on_malformed (v x : PyVal) (xs : List PyVal) :
    (v.isDict = false → simplify_dosing v = []) ∧
    (v.isList = false → simplify_categories v = []) ∧
    (v.isList = false → simplify_interactions v = []) ∧
    (v.isList = false → simplify_dosages v = []) ∧
    (x.isDict = false → simplify_interactions (.listV (x :: xs)) =
      simplify_interactions (.listV xs)) ∧
    (x.isDict = false → simplify_dosages (.listV (x :: xs)) =
      simplify_dosages (.listV xs)) ∧
    (x.isDict = false → x.isStr = false →
      simplify_categories (.listV (x :: xs)) = simplify_categories (.listV xs)) := by
  refine ⟨?_, ?_, ?_, ?_, ?_, ?_, ?_⟩
  · intro h; cases v <;> simp_all [PyVal.isDict, simplify_dosing]
  · intro h; cases v <;> simp_all [PyVal.isList, simplify_categories]
  · intro h; cases v <;> simp_all [PyVal.isList, simplify_interactions]
  · intro h; cases v <;> simp_all [PyVal.isList, simplify_dosages]
  · intro h
    cases x <;> simp_all [PyVal.isDict, simplify_interactions, List.filterMap_cons]
  · intro h
    cases x <;> simp_all [PyVal.isDict, simplify_dosages, List.filterMap_cons]
  · intro h1 h2
    cases x <;>
      simp_all [PyVal.isDict, PyVal.isStr, simplify_categories, List.filterMap_cons]

/-- Claim C5, witness: concrete malformed shapes are handled without
raising. -/
theorem C5_witness :
    simplify_dosing (.intV 0) = [] ∧ simplify_categories (.intV 0) = [] ∧
    simplify_interactions (.intV 0) = [] ∧ simplify_dosages (.intV 0) = [] ∧
    simplify_interactions (.listV [.noneV]) = simplify_interactions (.listV []) ∧
    simplify_dosages (.listV [.noneV]) = simplify_dosages (.listV []) ∧
    simplify_categories (.listV [.noneV]) = simplify_categories (.listV []) := by
  have h := C5_total_on_malformed (.intV 0) .noneV []
  exact ⟨h.1 rfl, h.2.1 rfl, h.2.2.1 rfl, h.2.2.2.1 rfl, h.2.2.2.2.1 rfl,
         h.2.2.2.2.2.1 rfl, h.2.2.2.2.2.2 rfl rfl⟩

/-- Claim C6, counterexample: with the source present (containing one
drug whose `drugbank_ids` is the integer `5`) and no target, `main`
raises `AttributeError`, so "when the source exists, main completes
without raising" fails. -/
theorem C6_counterexample :
    compactMain ⟨some ⟨.dictV [], [.dictV [("drugbank_ids", .intV 5)]]⟩, Option.none⟩ =
      .error .attributeError := rfl

/-- Claim C6, amended: `main` raises `FileNotFoundError` exactly when the
source is absent (the source check precedes the skip check, so this holds
even when the target exists); when the source exists and every drug's
`drugbank_ids` field, where present, is a mapping, `main` completes
without raising. -/
theorem C6_not_found (st : CompactState) (db : SourceDB) :
    (compactMain st = .error .fileNotFound ↔ st.source = Option.none) ∧
    (st.source = some db → (∀ d ∈ db.drugs, trimSafe d = true) →
      exOk (compactMain st) = true) := by
  constructor
  · obtain ⟨src, tgt⟩ := st
    cases src with
    | none => simp [compactMain]
    | some db' =>
        simp only [compactMain]
        cases tgt with
        | some t => simp
        | none =>
            cases ht : trimAll db'.drugs with
            | error e =>
                have := trimAll_error _ _ ht
                subst this
                simp
            | ok ts => simp
  · intro hsrc hsafe
    obtain ⟨src, tgt⟩ := st
    simp only at hsrc
    subst hsrc
    simp only [compactMain]
    cases tgt with
    | some t => rfl
    | none =>
        have := trimAll_ok db.drugs hsafe
        cases ht : trimAll db.drugs with
        | error e => rw [ht] at this; cases this
        | ok ts => rfl

/-- Claim C6, witness: on a well-formed source with no target, `main`
completes without raising. -/
theorem C6_witness :
    exOk (compactMain ⟨some ⟨.dictV [], []⟩, Option.none⟩) = true := by
  have h := C6_not_found ⟨some ⟨.dictV [], []⟩, Option.none⟩ ⟨.dictV [], []⟩
  exact h.2 rfl (by simp)

/-- Claim C7, counterexample: the initial response carries a cookie whose
key starts with `download_warning` (with an empty value), yet only the one
initial request is issued — `if token:` is falsy — so "a cookie with the
marker prefix implies a second request" fails. -/
theorem C7_counterexample :
    warningToken [("download_warning_x", "")] = some "" ∧
    (download_file (fun _ => .ok ⟨200, [("download_warning_x", "")], ["data"]⟩)
      "u" "t" ⟨[]⟩).reqs = [⟨"u", []⟩] :=
  ⟨rfl, rfl⟩

/-- Claim C7, amended: when the initial response carries a cookie whose
key starts with `download_warning` and whose value is non-empty, and only
then, a second request is issued to the same download URL with that
cookie's value as the `confirm` parameter; otherwise (no such cookie, or
the first such cookie's value is empty) the initial response is used
directly. -/
theorem C7_confirmation_token (net : Net) (url target : String) (fs : FetchFS)
    (resp1 : HttpResp) (hnet : net ⟨resolvedUrl url, []⟩ = .ok resp1) :
    (∀ tok, warningToken resp1.cookies = some tok → tok ≠ "" →
      (download_file net url target fs).reqs =
        [⟨resolvedUrl url, []⟩, ⟨resolvedUrl url, [("confirm", tok)]⟩]) ∧
    (warningToken resp1.cookies = Option.none →
      (download_file net url target fs).reqs = [⟨resolvedUrl url, []⟩] ∧
      (downloadBody net url target fs).1 = saveResponse resp1 target fs) ∧
    (warningToken resp1.cookies = some "" →
      (download_file net url target fs).reqs = [⟨resolvedUrl url, []⟩] ∧
      (downloadBody net url target fs).1 = saveResponse resp1 target fs) := by
  refine ⟨?_, ?_, ?_⟩
  · intro tok htok hne
    have hb : (tok != "") = true := by simp [hne]
    rw [download_file_reqs]
    simp only [downloadBody, hnet, htok, hb, if_true]
    cases net ⟨resolvedUrl url, [("confirm", tok)]⟩ <;> rfl
  · intro htok
    constructor
    · rw [download_file_reqs]
      simp only [downloadBody, hnet, htok]
    · simp only [downloadBody, hnet, htok]
  · intro htok
    constructor
    · rw [download_file_reqs]
      simp only [downloadBody, hnet, htok]
      rfl
    · simp only [downloadBody, hnet, htok]
      rfl

/-- Claim C7, witness: a warning cookie with a non-empty value on the
first response triggers exactly one extra request carrying the token as
`confirm`. -/
theorem C7_witness :
    (download_file
      (fun r => if r.params.isEmpty then .ok ⟨200, [("download_warning_x", "TOK")], []⟩
                else .ok ⟨200, [], ["data"]⟩) "u" "t" ⟨[]⟩).reqs =
      [⟨"u", []⟩, ⟨"u", [("confirm", "TOK")]⟩] := by
  have h := C7_confirmation_token
    (fun r => if r.params.isEmpty then .ok ⟨200, [("download_warning_x", "TOK")], []⟩
              else .ok ⟨200, [], ["data"]⟩) "u" "t" ⟨[]⟩
    ⟨200, [("download_warning_x", "TOK")], []⟩ rfl
  exact h.1 "TOK" rfl (by decide)

/-- Claim C8: the sample share-link URL yields the identifier `ABC123`
and the expected direct-download URL. -/
theorem C8_drive_url :
    extract_drive_file_id "https://drive.google.com/file/d/ABC123/view?usp=drive_link" =
      some "ABC123" ∧
    build_drive_download_url "ABC123" =
      "https://drive.google.com/uc?export=download&id=ABC123" :=
  ⟨rfl, rfl⟩

/-- Claim C9: download failures are soft — an exception in the body of
`download_file` is caught and turned into a `False` return, a missing URL
for an absent target produces only a warning, and the Fetcher's `main`
always completes, logging one line per target regardless of network
behavior. -/
theorem C9_soft_failures (net : Net) (url target : String) (fs fs2 : FetchFS) (e : Unit)
    (reqs : List Request) (ourl : Option String) (env : FetchEnv) :
    (downloadBody net url target fs = (.error e, reqs) →
      download_file net url target fs = ⟨false, fs, reqs⟩) ∧
    (fileExists fs target = false → urlTruthy ourl = false →
      ensure_file net target ourl fs = (fs, [], [.noUrl target])) ∧
    2 ≤ (fetchMain net env fs2).2.2.length := by
  refine ⟨?_, ?_, ?_⟩
  · intro h
    unfold download_file
    rw [h]
  · intro h1 h2
    simp [ensure_file, h1, h2]
  · unfold fetchMain
    simp only [List.length_append]
    rw [ensure_file_log_len, ensure_file_log_len]
    omega

/-- Claim C9, witness: with a network that always raises, `download_file`
returns `False` with the file system unchanged, a missing URL yields only
a warning, and `main` still completes with a log line per target. -/
theorem C9_witness :
    download_file (fun _ => .error ()) "u" "t" ⟨[]⟩ = ⟨false, ⟨[]⟩, [⟨"u", []⟩]⟩ ∧
    ensure_file (fun _ => .error ()) "t" Option.none ⟨[]⟩ = (⟨[]⟩, [], [.noUrl "t"]) ∧
    2 ≤ (fetchMain (fun _ => .error ()) ⟨Option.none, Option.none⟩ ⟨[]⟩).2.2.length := by
  have h := C9_soft_failures (fun _ => .error ()) "u" "t" ⟨[]⟩ ⟨[]⟩ () [⟨"u", []⟩]
    Option.none ⟨Option.none, Option.none⟩
  exact ⟨h.1 rfl, h.2.1 rfl rfl, h.2.2⟩

/-- Claim C10, counterexample: on the input mapping
`{"drugbank_ids": None}`, `trim_drug` raises `AttributeError` instead of
returning a mapping, so the claim fails for some input mappings. -/
theorem C10_counterexample :
    trim_drug [("drugbank_ids", PyVal.noneV)] = .error .attributeError := rfl

/-- Claim C10, amended: for every input drug mapping whose
`drugbank_ids` value, where present, is itself a mapping (including the
empty mapping), `trim_drug` returns a mapping with exactly the fixed 15
top-level keys, whose `drugbank_ids` value is a mapping with exactly the
keys `primary` and `secondary`, `secondary` defaulting to the empty
sequence when absent in the source. -/
theorem C10_fixed_keys (d : PyDict)
    (h : (pyGetD d "drugbank_ids" (.dictV [])).isDict = true) :
    trim_drug d = .ok (trimResult d) ∧
    (trimResult d).map Prod.fst = trimmedKeys ∧
    ∀ ids, drugbankIdsOf d = .ok ids →
      (trimResult d).lookup "drugbank_ids" =
        some (.dictV [("primary", pyGet ids "primary"),
                      ("secondary", pyGetD ids "secondary" (.listV []))]) := by
  cases hpv : pyGetD d "drugbank_ids" (.dictV []) <;> rw [hpv] at h <;>
    simp [PyVal.isDict] at h
  case dictV ids0 =>
  have hids : drugbankIdsOf d = .ok ids0 := by
    simp [drugbankIdsOf, hpv]
  have htd : trim_drug d =
      .ok [("name", pyGet d "name"),
           ("drugbank_ids", .dictV [("primary", pyGet ids0 "primary"),
                                    ("secondary", pyGetD ids0 "secondary" (.listV []))]),
           ("description", pyGet d "description"),
           ("type", pyGet d "type"),
           ("groups", pyGetD d "groups" (.listV [])),
           ("categories", .listV (simplify_categories (pyGet d "categories"))),
           ("mechanism_of_action", pyGet d "mechanism_of_action"),
           ("half_life", pyGet d "half_life"),
           ("absorption", pyGet d "absorption"),
           ("metabolism", pyGet d "metabolism"),
           ("food_interactions", pyGetD d "food_interactions" (.listV [])),
           ("drug_interactions", .listV (simplify_interactions (pyGet d "drug_interactions"))),
           ("experimental_properties",
             .listV (simplify_properties (pyGet d "experimental_properties"))),
           ("dosages", .listV (simplify_dosages (pyGet d "dosages"))),
           ("dosing_info", .dictV (simplify_dosing (pyGet d "dosing_info")))] := by
    simp only [trim_drug, hids]
  refine ⟨?_, ?_, ?_⟩
  · simp only [trimResult, htd]
  · simp only [trimResult, htd]
    rfl
  · intro ids hids2
    rw [hids] at hids2
    cases hids2
    simp only [trimResult, htd]
    simp [List.lookup]

/-- Claim C10, witness: the empty mapping is trimmed to the fixed 15-key
record with the two-key `drugbank_ids` and an empty `secondary`. -/
theorem C10_witness :
    trim_drug [] = .ok (trimResult []) ∧
    (trimResult []).map Prod.fst = trimmedKeys ∧
    (trimResult []).lookup "drugbank_ids" =
      some (.dictV [("primary", PyVal.noneV), ("secondary", .listV [])]) := by
  have h := C10_fixed_keys [] rfl
  exact ⟨h.1, h.2.1, h.2.2 [] rfl⟩

end DrugApp
